import Mathlib

/-!
Shallow embedding of the UART–SPI retranslator module
(`components/uart-spi/uart-spi.c` / `.h` and `app/app.c` of the
stm32-uart-spi-transmitter repository).

The embedding models, faithful to the source:
* the SPI-side message-framing filter (the scan loop at the end of
  `spi_task`),
* the FreeRTOS stream buffers used as byte channels
  (`xStreamBufferCreate(1024, 1)`, `xStreamBufferSend` with zero block
  time, `xStreamBufferReceive`),
* the CMSIS binary semaphores used as completion signals
  (`osSemaphoreNew(1, 1, NULL)`, acquire with timeout, release),
* one loop iteration of `uart_task` and of `spi_task`, with the outcome
  of the asynchronous start calls and of the 100 ms completion waits as
  explicit parameters,
* the startup function `uart_spi_start`, whose failure paths are
  `assert()` calls (modelled as `Except.error`, an abort).
-/

namespace UartSpi

/-- `CHUNK_BUFF_SIZE` from `uart-spi.c`. -/
def CHUNK_BUFF_SIZE : Nat := 128

/-- A byte as it travels through the module; zero is the idle
filler / terminator value, 1–255 are payload. -/
abbrev Byte := Nat

/-! ## The framing filter of `spi_task`

The `for (int q = 0; q < length; q++)` loop at the end of `spi_task`
(`uart-spi.c`): a non-zero received byte sets `message_receiving` and is
sent to `spi_rx_stream`; a zero byte is sent (and `message_receiving`
cleared) only when `message_receiving` is set, and is dropped otherwise. -/

/-- One body execution of the scan loop of `spi_task`: given the
`message_receiving` flag and the byte `chunk_buff_rx[q]`, return the new
flag and the bytes sent to `spi_rx_stream` (zero or one byte). -/
def framing_step (message_receiving : Bool) (b : Byte) : Bool × List Byte :=
  if b ≠ 0 then
    (true, [b])
  else if message_receiving then
    (false, [b])
  else
    (message_receiving, [])

/-- The whole scan loop of `spi_task` over a received buffer, left to
right: final `message_receiving` flag and the concatenation of all bytes
sent to `spi_rx_stream`. -/
def framing_scan (message_receiving : Bool) : List Byte → Bool × List Byte
  | [] => (message_receiving, [])
  | b :: rest =>
    let p := framing_step message_receiving b
    let q := framing_scan p.1 rest
    (q.1, p.2 ++ q.2)

/-- Several successive SPI transactions: `message_receiving` is a local
of `spi_task` declared outside the `while (1)` loop, so the flag coming
out of one received chunk feeds the scan of the next chunk. -/
def framing_run (message_receiving : Bool) : List (List Byte) → Bool × List Byte
  | [] => (message_receiving, [])
  | c :: cs =>
    let p := framing_scan message_receiving c
    let q := framing_run p.1 cs
    (q.1, p.2 ++ q.2)

/-! ## The byte channels (FreeRTOS stream buffers)

Both channels are created by `xStreamBufferCreate(1024, 1)`.  All
producers in the module send with a block time of 0 ticks
(`xStreamBufferSend(stream, data, n, 0)`), so a send stores as many of
the offered bytes as fit and returns that count, never blocking.  A
receive removes up to `maxLen` bytes from the front. -/

/-- A FreeRTOS stream buffer: fixed capacity, FIFO byte content. -/
structure StreamBuffer where
  capacity : Nat
  data : List Byte
deriving DecidableEq, Repr

/-- `xStreamBufferCreate(cap, 1)`: an empty buffer of capacity `cap`. -/
def xStreamBufferCreate (cap : Nat) : StreamBuffer :=
  { capacity := cap, data := [] }

/-- `xStreamBufferSend(sb, bytes, n, 0)` as used at every call site of
the module (block time 0): store the longest prefix of `bytes` that
fits, return the updated buffer and the number of bytes stored. -/
def xStreamBufferSend (sb : StreamBuffer) (bytes : List Byte) :
    StreamBuffer × Nat :=
  let stored := bytes.take (sb.capacity - sb.data.length)
  ({ sb with data := sb.data ++ stored }, stored.length)

/-- `xStreamBufferReceive(sb, buf, maxLen, _)` once at least one byte is
available (or after the timeout with none): remove and return up to
`maxLen` bytes from the front, oldest first. -/
def xStreamBufferReceive (sb : StreamBuffer) (maxLen : Nat) :
    StreamBuffer × List Byte :=
  ({ sb with data := sb.data.drop maxLen }, sb.data.take maxLen)

/-- Produce a sequence of bytes one at a time, as the UART receive
interrupt does (`xStreamBufferSend(uart_rx_stream, &uart_rx_byte, 1, 0)`
per byte). -/
def produce_each (sb : StreamBuffer) (bytes : List Byte) : StreamBuffer :=
  bytes.foldl (fun s b => (xStreamBufferSend s [b]).1) sb

/-! ## The completion signals (CMSIS binary semaphores)

Both semaphores are created by `osSemaphoreNew(1, 1, NULL)`: maximum
count 1, initial count 1 (released at initial).  `osSemaphoreAcquire`
with a timeout takes a token when one is available, otherwise times out;
`osSemaphoreRelease` on a semaphore already at its maximum count leaves
it unchanged and reports `osErrorResource` (which every caller in the
module ignores). -/

inductive OsStatus where
  | osOK
  | osErrorTimeout
  | osErrorResource
deriving DecidableEq, Repr

/-- A CMSIS-RTOS2 semaphore: maximum token count and current count. -/
structure Semaphore where
  max_count : Nat
  count : Nat
deriving DecidableEq, Repr

/-- `osSemaphoreNew(max, init, NULL)`. -/
def osSemaphoreNew (max init : Nat) : Semaphore :=
  { max_count := max, count := init }

/-- `osSemaphoreAcquire(sema, timeout)`: with a token available the call
takes it and returns `osOK`; with none available (and no release
arriving within the timeout) it returns `osErrorTimeout` and leaves the
semaphore unchanged. -/
def osSemaphoreAcquire (s : Semaphore) : Semaphore × OsStatus :=
  if 0 < s.count then
    ({ s with count := s.count - 1 }, .osOK)
  else
    (s, .osErrorTimeout)

/-- `osSemaphoreRelease(sema)`: return a token; at the maximum count the
call is a no-op reporting `osErrorResource`. -/
def osSemaphoreRelease (s : Semaphore) : Semaphore × OsStatus :=
  if s.count < s.max_count then
    ({ s with count := s.count + 1 }, .osOK)
  else
    (s, .osErrorResource)

/-! ## The interrupt callbacks registered by `uart_spi_start`

Each transmit/transaction callback only releases the matching
semaphore; the UART receive callback sends the received byte to
`uart_rx_stream` and rearms reception. -/

/-- `uart_tx_complete_callback`: release `uart_tx_sema`. -/
def uart_tx_complete_callback (uart_tx_sema : Semaphore) : Semaphore :=
  (osSemaphoreRelease uart_tx_sema).1

/-- `uart_error_callback`: release `uart_tx_sema`. -/
def uart_error_callback (uart_tx_sema : Semaphore) : Semaphore :=
  (osSemaphoreRelease uart_tx_sema).1

/-- `spi_tx_rx_complete_callback`: release `spi_tx_rx_sema`. -/
def spi_tx_rx_complete_callback (spi_tx_rx_sema : Semaphore) : Semaphore :=
  (osSemaphoreRelease spi_tx_rx_sema).1

/-- `spi_error_callback`: release `spi_tx_rx_sema`. -/
def spi_error_callback (spi_tx_rx_sema : Semaphore) : Semaphore :=
  (osSemaphoreRelease spi_tx_rx_sema).1

/-- `uart_rx_complete_callback`: send the one received byte to
`uart_rx_stream` (block time 0) and rearm single-byte reception. -/
def uart_rx_complete_callback (uart_rx_stream : StreamBuffer)
    (uart_rx_byte : Byte) : StreamBuffer :=
  (xStreamBufferSend uart_rx_stream [uart_rx_byte]).1

/-! ## One loop iteration of each task

The outcome of the asynchronous start call (`uart_tx_async` /
`spi_tx_rx` returning 0 or -1) and of the 100 ms completion wait
(`uart_wait_tx_ready(100)` / `spi_wait_ready(100)` returning 0 or -1)
are explicit parameters; the DMA-filled receive buffer of the SPI
transaction is a parameter as well. -/

/-- Observable effects of one `while (1)` body of `spi_task`. -/
structure SpiIterResult where
  /-- `chunk_buff_tx` contents passed to `spi_tx_rx`. -/
  tx_data : List Byte
  /-- `length` passed to `spi_tx_rx`. -/
  tx_len : Nat
  /-- whether `spi_wait_ready(100)` was reached. -/
  waited : Bool
  /-- whether `spi_abort` was called. -/
  aborted : Bool
  /-- bytes sent to `spi_rx_stream` by the scan loop, in order. -/
  forwarded : List Byte
  /-- the `message_receiving` flag after the iteration. -/
  message_receiving : Bool
deriving DecidableEq, Repr

/-- One `while (1)` body of `spi_task`: non-blocking receive from
`uart_rx_stream`; on 0 bytes fill `chunk_buff_tx` with `CHUNK_BUFF_SIZE`
zeros; start the full-duplex transaction (on failure `continue`); wait
up to 100 ms, aborting on timeout; then scan `chunk_buff_rx[0..length)`
with the framing filter. -/
def spi_task_iter (message_receiving : Bool) (uart_rx_stream : StreamBuffer)
    (tx_start_ok : Bool) (wait_ok : Bool) (chunk_buff_rx : List Byte) :
    SpiIterResult × StreamBuffer :=
  let r := xStreamBufferReceive uart_rx_stream CHUNK_BUFF_SIZE
  let consumed := r.2
  let length := if consumed.length = 0 then CHUNK_BUFF_SIZE else consumed.length
  let chunk_buff_tx :=
    if consumed.length = 0 then List.replicate CHUNK_BUFF_SIZE 0 else consumed
  if !tx_start_ok then
    -- spi_tx_rx failed: "Error. Just continue;"
    ({ tx_data := chunk_buff_tx, tx_len := length, waited := false,
       aborted := false, forwarded := [],
       message_receiving := message_receiving }, r.1)
  else
    -- after the (possibly aborted) wait the scan loop runs regardless
    let p := framing_scan message_receiving (chunk_buff_rx.take length)
    ({ tx_data := chunk_buff_tx, tx_len := length, waited := true,
       aborted := !wait_ok, forwarded := p.2,
       message_receiving := p.1 }, r.1)

/-- Observable effects of one `while (1)` body of `uart_task`. -/
structure UartIterResult where
  /-- bytes passed to `uart_tx_async` (`[]` when it was not called). -/
  tx_data : List Byte
  /-- whether `uart_tx_async` was called. -/
  tx_called : Bool
  /-- whether `uart_wait_tx_ready(100)` was reached. -/
  waited : Bool
  /-- whether `uart_tx_abort` was called. -/
  aborted : Bool
deriving DecidableEq, Repr

/-- One `while (1)` body of `uart_task`: blocking receive from
`spi_rx_stream`; if bytes arrived, start the asynchronous transmit (on
failure `continue`); wait up to 100 ms for completion, aborting the
transmit on timeout. -/
def uart_task_iter (spi_rx_stream : StreamBuffer)
    (tx_start_ok : Bool) (wait_ok : Bool) : UartIterResult × StreamBuffer :=
  let r := xStreamBufferReceive spi_rx_stream CHUNK_BUFF_SIZE
  let chunk := r.2
  if 0 < chunk.length then
    if !tx_start_ok then
      -- uart_tx_async failed: "Error. Just continue;"
      ({ tx_data := chunk, tx_called := true, waited := false,
         aborted := false }, r.1)
    else
      ({ tx_data := chunk, tx_called := true, waited := true,
         aborted := !wait_ok }, r.1)
  else
    ({ tx_data := [], tx_called := false, waited := false,
       aborted := false }, r.1)

/-! ## Startup: `uart_spi_start`

Every failure path in `uart_spi_start` is an `assert(...)`; with
assertions enabled a failure aborts the program, so the function is
modelled in `Except`, with `Except.error ()` standing for the assertion
abort.  The outcome of each registration, allocation and task start is a
flag of the environment. -/

/-- Outcomes of the external calls made by `uart_spi_start`, in source
order. -/
structure StartEnv where
  /-- `HAL_UART_RegisterCallback(huart, HAL_UART_TX_COMPLETE_CB_ID, ...)` -/
  uart_tx_cb_ok : Bool
  /-- `HAL_UART_RegisterCallback(huart, HAL_UART_RX_COMPLETE_CB_ID, ...)` -/
  uart_rx_cb_ok : Bool
  /-- `HAL_UART_RegisterCallback(huart, HAL_UART_ERROR_CB_ID, ...)` -/
  uart_err_cb_ok : Bool
  /-- `xStreamBufferCreate(1024, 1)` for `uart_rx_stream` -/
  uart_stream_ok : Bool
  /-- `osSemaphoreNew(1, 1, NULL)` for `uart_tx_sema` -/
  uart_sema_ok : Bool
  /-- `HAL_SPI_RegisterCallback(hspi, HAL_SPI_TX_RX_COMPLETE_CB_ID, ...)` -/
  spi_txrx_cb_ok : Bool
  /-- `HAL_SPI_RegisterCallback(hspi, HAL_SPI_ERROR_CB_ID, ...)` -/
  spi_err_cb_ok : Bool
  /-- `xStreamBufferCreate(1024, 1)` for `spi_rx_stream` -/
  spi_stream_ok : Bool
  /-- `osSemaphoreNew(1, 1, NULL)` for `spi_tx_rx_sema` -/
  spi_sema_ok : Bool
  /-- `osThreadNew(uart_task, NULL, NULL)` -/
  uart_thread_ok : Bool
  /-- `osThreadNew(spi_task, NULL, NULL)` -/
  spi_thread_ok : Bool
deriving DecidableEq, Repr

/-- All eleven external calls of `uart_spi_start` succeed. -/
def StartEnv.allOk (e : StartEnv) : Bool :=
  e.uart_tx_cb_ok && e.uart_rx_cb_ok && e.uart_err_cb_ok &&
  e.uart_stream_ok && e.uart_sema_ok && e.spi_txrx_cb_ok &&
  e.spi_err_cb_ok && e.spi_stream_ok && e.spi_sema_ok &&
  e.uart_thread_ok && e.spi_thread_ok

/-- `uart_spi_start`: register the three UART callbacks, create
`uart_rx_stream` and `uart_tx_sema`, register the two SPI callbacks,
create `spi_rx_stream` and `spi_tx_rx_sema`, start the two tasks, and
return 0.  Each step is followed by `assert(...)`, so any failure aborts
(`Except.error ()`); there is no path returning -1. -/
def uart_spi_start (e : StartEnv) : Except Unit Int :=
  if !e.uart_tx_cb_ok then .error () else
  if !e.uart_rx_cb_ok then .error () else
  if !e.uart_err_cb_ok then .error () else
  if !e.uart_stream_ok then .error () else
  if !e.uart_sema_ok then .error () else
  if !e.spi_txrx_cb_ok then .error () else
  if !e.spi_err_cb_ok then .error () else
  if !e.spi_stream_ok then .error () else
  if !e.spi_sema_ok then .error () else
  if !e.uart_thread_ok then .error () else
  if !e.spi_thread_ok then .error () else
  .ok 0

/-! ## Spec-side companion definition and output predicates -/

/-- The framing filter exactly as the spec words it (§4.6 step 5), for
comparison with `framing_scan` taken from the source: scan left to
right; a non-zero byte sets `inside_message` and is forwarded; a zero
byte is forwarded (and the flag cleared) exactly when `inside_message`
holds, and is silently discarded otherwise. -/
def framing_scan_spec (inside_message : Bool) : List Byte → Bool × List Byte
  | [] => (inside_message, [])
  | b :: rest =>
    if b ≠ 0 then
      let q := framing_scan_spec true rest
      (q.1, b :: q.2)
    else if inside_message then
      let q := framing_scan_spec false rest
      (q.1, b :: q.2)
    else
      framing_scan_spec inside_message rest

/-- The first byte of the list is a zero byte. -/
def headIsZero : List Byte → Bool
  | b :: _ => b == 0
  | [] => false

/-- Two consecutive zero bytes occur somewhere in the list. -/
def hasConsecZeros : List Byte → Bool
  | a :: b :: rest => (a == 0 && b == 0) || hasConsecZeros (b :: rest)
  | _ => false

/-! ## Helper lemmas -/

theorem framing_scan_append (s : Bool) (xs ys : List Byte) :
    framing_scan s (xs ++ ys) =
      ((framing_scan (framing_scan s xs).1 ys).1,
       (framing_scan s xs).2 ++ (framing_scan (framing_scan s xs).1 ys).2) := by
  induction xs generalizing s with
  | nil => simp [framing_scan]
  | cons b rest ih =>
      simp [framing_scan, ih, List.append_assoc]

theorem framing_run_flatten (s : Bool) (cs : List (List Byte)) :
    framing_run s cs = framing_scan s cs.flatten := by
  induction cs generalizing s with
  | nil => simp [framing_run, framing_scan]
  | cons c cs ih => simp [framing_run, framing_scan_append, ih]

theorem framing_scan_all_nonzero (xs : List Byte) (hne : xs ≠ [])
    (h : ∀ b ∈ xs, b ≠ 0) (s : Bool) :
    framing_scan s xs = (true, xs) := by
  induction xs generalizing s with
  | nil => cases hne rfl
  | cons b rest ih =>
      have hb : b ≠ 0 := h b (List.mem_cons_self _ _)
      by_cases hr : rest = []
      · subst hr
        simp [framing_scan, framing_step, hb]
      · have hrec := ih hr (fun x hx => h x (List.mem_cons_of_mem _ hx)) true
        simp [framing_scan, framing_step, hb, hrec]

theorem framing_scan_zeros (n : Nat) :
    framing_scan false (List.replicate n 0) = (false, []) := by
  induction n with
  | zero => rfl
  | succ n ih => simp [List.replicate_succ, framing_scan, framing_step, ih]

theorem framing_scan_true_zeros (n : Nat) :
    framing_scan true ((0 : Byte) :: List.replicate n 0) = (false, [0]) := by
  have h0 : framing_step true 0 = (false, [0]) := by simp [framing_step]
  simp only [framing_scan]
  simp [h0, framing_scan_zeros]

theorem hasConsecZeros_cons (a : Byte) (t : List Byte) :
    hasConsecZeros (a :: t) = ((a == 0) && headIsZero t || hasConsecZeros t) := by
  cases t <;> simp [hasConsecZeros, headIsZero]

theorem framing_scan_no_bad_zeros (input : List Byte) : ∀ s : Bool,
    hasConsecZeros (framing_scan s input).2 = false ∧
      (s = false → headIsZero (framing_scan s input).2 = false) := by
  induction input with
  | nil =>
      intro s
      simp [framing_scan, hasConsecZeros, headIsZero]
  | cons b rest ih =>
      intro s
      by_cases hb : b = 0
      · subst hb
        cases s with
        | false =>
            simpa [framing_scan, framing_step] using ih false
        | true =>
            refine ⟨?_, ?_⟩
            · simp [framing_scan, framing_step, hasConsecZeros_cons,
                (ih false).1, (ih false).2 rfl]
            · intro hs
              simp at hs
      · refine ⟨?_, ?_⟩
        · simp [framing_scan, framing_step, hb, hasConsecZeros_cons, (ih true).1]
        · intro _
          simp [framing_scan, framing_step, hb, headIsZero]

theorem produce_each_fits (xs : List Byte) : ∀ sb : StreamBuffer,
    sb.data.length + xs.length ≤ sb.capacity →
      produce_each sb xs =
        { capacity := sb.capacity, data := sb.data ++ xs } := by
  induction xs with
  | nil =>
      intro sb _
      simp [produce_each]
  | cons x rest ih =>
      intro sb hfit
      have hspace : 1 ≤ sb.capacity - sb.data.length := by
        simp [List.length_cons] at hfit
        omega
      have hstep : (xStreamBufferSend sb [x]).1 =
          { capacity := sb.capacity, data := sb.data ++ [x] } := by
        simp [xStreamBufferSend, List.take_of_length_le, hspace]
      have hrec := ih { capacity := sb.capacity, data := sb.data ++ [x] }
        (by simp [List.length_cons] at hfit ⊢; omega)
      calc produce_each sb (x :: rest)
      _ = produce_each (xStreamBufferSend sb [x]).1 rest := rfl
      _ = produce_each { capacity := sb.capacity, data := sb.data ++ [x] } rest := by
            rw [hstep]
      _ = { capacity := sb.capacity, data := sb.data ++ [x] ++ rest } := by
            simpa using hrec
      _ = { capacity := sb.capacity, data := sb.data ++ x :: rest } := by
            simp

/-! ## Claim theorems -/

/-- C1: for every received SPI buffer and every initial value of the
`message_receiving` (`inside_message`) flag, the scan loop of `spi_task`
behaves exactly as the spec's left-to-right case analysis
(`framing_scan_spec`): a non-zero byte is forwarded and sets the flag, a
zero byte is forwarded (clearing the flag) exactly when the flag is set,
and is silently discarded when it is not. -/
theorem claim_C1_framing_filter (s : Bool) (buf : List Byte) :
    framing_scan s buf = framing_scan_spec s buf := by
  induction buf generalizing s with
  | nil => rfl
  | cons b rest ih =>
      by_cases hb : b = 0
      · subst hb
        cases s <;> simp [framing_scan, framing_scan_spec, framing_step, ih]
      · simp [framing_scan, framing_scan_spec, framing_step, hb, ih]

/-- C2: the `message_receiving` flag persists across successive SPI
transactions, so a message of exactly 130 non-zero bytes followed by a
terminator, delivered as a 128-byte transaction and then a second
transaction holding the remaining 2 bytes, the terminator and idle
filler, is forwarded as the 130 bytes followed by one terminator, with
nothing duplicated or dropped at the chunk boundary. -/
theorem claim_C2_message_spans_chunk_boundary (m : List Byte)
    (hlen : m.length = 130) (hnz : ∀ b ∈ m, b ≠ 0) :
    framing_run false [m.take 128, m.drop 128 ++ 0 :: List.replicate 125 0] =
      (false, m ++ [0]) := by
  have h1 : framing_scan false (m.take 128) = (true, m.take 128) := by
    apply framing_scan_all_nonzero
    · intro h
      have hl := congrArg List.length h
      simp [hlen] at hl
    · intro b hb
      exact hnz b (List.mem_of_mem_take hb)
  have h2 : framing_scan true (m.drop 128) = (true, m.drop 128) := by
    apply framing_scan_all_nonzero
    · intro h
      have hl := congrArg List.length h
      simp [hlen] at hl
    · intro b hb
      exact hnz b (List.mem_of_mem_drop hb)
  have h4 : framing_scan true (m.drop 128 ++ 0 :: List.replicate 125 0) =
      (false, m.drop 128 ++ [0]) := by
    rw [framing_scan_append]
    simp only [h2, framing_scan_true_zeros]
  simp only [framing_run, h1, h4]
  simp [← List.append_assoc, List.take_append_drop]

/-- C2 witness: the concrete 130-byte message of all-1 bytes. -/
theorem claim_C2_message_spans_chunk_boundary_witness :
    framing_run false
      [(List.replicate 130 1).take 128,
       (List.replicate 130 1).drop 128 ++ 0 :: List.replicate 125 0] =
      (false, List.replicate 130 1 ++ [0]) :=
  claim_C2_message_spans_chunk_boundary (List.replicate 130 1)
    (by simp)
    (fun b hb => by rw [List.eq_of_mem_replicate hb]; decide)

/-- C3: an SPI receive stream consisting of the bytes
72,69,76,76,79,0 surrounded by arbitrary runs of zero filler and split
arbitrarily into transactions yields, when run through the framing
filter from its initial state, exactly the bytes 72,69,76,76,79,0, with
no leading or trailing zero bytes. -/
theorem claim_C3_framing_round_trip (a b : Nat) (chunks : List (List Byte))
    (hsplit : chunks.flatten =
      List.replicate a 0 ++ [72, 69, 76, 76, 79, 0] ++ List.replicate b 0) :
    framing_run false chunks = (false, [72, 69, 76, 76, 79, 0]) := by
  have hh : framing_scan false [72, 69, 76, 76, 79, 0] =
      (false, [72, 69, 76, 76, 79, 0]) := by decide
  have hza : framing_scan false
      (List.replicate a 0 ++ [72, 69, 76, 76, 79, 0]) =
      (false, [72, 69, 76, 76, 79, 0]) := by
    rw [framing_scan_append, framing_scan_zeros]
    simp [hh]
  rw [framing_run_flatten, hsplit, framing_scan_append]
  simp only [hza, framing_scan_zeros]
  simp

/-- C3 witness: `"HELLO\0"` with one leading and two trailing zero
bytes, split into three transactions. -/
theorem claim_C3_framing_round_trip_witness :
    framing_run false [[0], [72, 69], [76, 76, 79, 0, 0, 0]] =
      (false, [72, 69, 76, 76, 79, 0]) :=
  claim_C3_framing_round_trip 1 2 [[0], [72, 69], [76, 76, 79, 0, 0, 0]]
    (by decide)

/-- C10: starting from the initial outside-message state, the sequence
of bytes the framing filter forwards to the SPI→UART channel never
begins with a zero byte and never contains two consecutive zero bytes:
every forwarded zero is immediately preceded by a forwarded non-zero
byte. -/
theorem claim_C10_no_stray_zeros (input : List Byte) :
    headIsZero (framing_scan false input).2 = false ∧
      hasConsecZeros (framing_scan false input).2 = false :=
  ⟨(framing_scan_no_bad_zeros input false).2 rfl,
   (framing_scan_no_bad_zeros input false).1⟩

/-- C4: in every `spi_task` iteration, when the non-blocking receive
from `uart_rx_stream` yields no bytes (empty channel) the task passes a
full 128-byte all-zero buffer and length 128 to `spi_tx_rx`; when it
yields `n > 0` bytes (non-empty channel) the transaction length is
exactly `n` and the consumed bytes are passed on unmodified. -/
theorem claim_C4_idle_padding_and_exact_length
    (s ok wok : Bool) (rx : List Byte) (cap : Nat) (d : Byte) (ds : List Byte) :
    ((spi_task_iter s { capacity := cap, data := [] } ok wok rx).1.tx_len =
        128 ∧
     (spi_task_iter s { capacity := cap, data := [] } ok wok rx).1.tx_data =
        List.replicate 128 0) ∧
    ((spi_task_iter s { capacity := cap, data := d :: ds } ok wok rx).1.tx_len =
        ((d :: ds).take CHUNK_BUFF_SIZE).length ∧
     (spi_task_iter s { capacity := cap, data := d :: ds } ok wok rx).1.tx_data =
        (d :: ds).take CHUNK_BUFF_SIZE) := by
  have hne : ¬((d :: ds).take CHUNK_BUFF_SIZE).length = 0 := by
    simp [CHUNK_BUFF_SIZE]
  have hC : ¬(CHUNK_BUFF_SIZE = 0) := by simp [CHUNK_BUFF_SIZE]
  constructor
  · cases ok <;>
      simp [spi_task_iter, xStreamBufferReceive, CHUNK_BUFF_SIZE]
  · cases ok <;>
      simp [spi_task_iter, xStreamBufferReceive, hne] <;>
      exact ⟨fun h => absurd h hC, fun h => absurd h hC⟩

/-- C5 (amended): when the 100 ms completion wait times out, the
in-flight operation is aborted and the loop continues with no retry and
no error reported further; the UART task's chunk is simply lost, but the
SPI task still runs the framing filter over its receive buffer and
forwards the resulting bytes to the SPI→UART channel. -/
theorem claim_C5_timeout_aborts_and_continues (s : Bool)
    (stream : StreamBuffer) (rx : List Byte)
    (cap : Nat) (d : Byte) (ds : List Byte) :
    ((spi_task_iter s stream true false rx).1.waited = true ∧
     (spi_task_iter s stream true false rx).1.aborted = true ∧
     (spi_task_iter s stream true false rx).1.forwarded =
       (framing_scan s
         (rx.take (spi_task_iter s stream true false rx).1.tx_len)).2) ∧
    ((uart_task_iter { capacity := cap, data := d :: ds } true false).1.tx_called
        = true ∧
     (uart_task_iter { capacity := cap, data := d :: ds } true false).1.waited
        = true ∧
     (uart_task_iter { capacity := cap, data := d :: ds } true false).1.aborted
        = true) := by
  constructor
  · simp [spi_task_iter, xStreamBufferReceive]
  · simp [uart_task_iter, xStreamBufferReceive, CHUNK_BUFF_SIZE]

set_option maxRecDepth 8192 in
/-- C5 counterexample to the claim as stated: with an empty UART→SPI
channel, a successfully started transaction, a timed-out completion wait
and received bytes 65,0,0,…,0, the iteration aborts the transaction yet
still forwards the bytes 65,0 — the chunk in flight is not discarded. -/
theorem claim_C5_counterexample :
    (spi_task_iter false (xStreamBufferCreate 1024) true false
        (65 :: List.replicate 127 0)).1.aborted = true ∧
    (spi_task_iter false (xStreamBufferCreate 1024) true false
        (65 :: List.replicate 127 0)).1.forwarded = [65, 0] := by
  constructor
  · rfl
  · decide

/-- C6: when the asynchronous start call fails (`uart_tx_async` /
`spi_tx_rx` returns nonzero), the current chunk is dropped and the task
proceeds to its next iteration without waiting on the completion signal,
without aborting, and without forwarding or reporting anything. -/
theorem claim_C6_tx_start_failure_drops_chunk (s wok : Bool)
    (stream : StreamBuffer) (rx : List Byte)
    (cap : Nat) (d : Byte) (ds : List Byte) :
    ((uart_task_iter { capacity := cap, data := d :: ds } false wok).1.tx_called
        = true ∧
     (uart_task_iter { capacity := cap, data := d :: ds } false wok).1.waited
        = false ∧
     (uart_task_iter { capacity := cap, data := d :: ds } false wok).1.aborted
        = false) ∧
    ((spi_task_iter s stream false wok rx).1.waited = false ∧
     (spi_task_iter s stream false wok rx).1.aborted = false ∧
     (spi_task_iter s stream false wok rx).1.forwarded = [] ∧
     (spi_task_iter s stream false wok rx).1.message_receiving = s) := by
  constructor
  · simp [uart_task_iter, xStreamBufferReceive, CHUNK_BUFF_SIZE]
  · simp [spi_task_iter, xStreamBufferReceive]

/-- C7: for a byte channel, a send never grows the content beyond the
capacity, leaves the already-stored bytes unchanged at the front (no
blocking, excess silently dropped), a send to a full channel stores
nothing and reports 0 stored with the content untouched, and bytes
produced one at a time into a fresh 1024-byte channel are consumed in
exactly the order produced. -/
theorem claim_C7_byte_channel_invariants (sb t : StreamBuffer)
    (xs ys : List Byte)
    (hsb : sb.data.length ≤ sb.capacity)
    (ht : t.data.length = t.capacity)
    (hys : ys.length ≤ 1024) :
    (xStreamBufferSend sb xs).1.data.length ≤ sb.capacity ∧
    (xStreamBufferSend sb xs).1.data.take sb.data.length = sb.data ∧
    xStreamBufferSend t xs = (t, 0) ∧
    (xStreamBufferReceive (produce_each (xStreamBufferCreate 1024) ys)
        ys.length).2 = ys := by
  refine ⟨?_, ?_, ?_, ?_⟩
  · have hmin : min xs.length (sb.capacity - sb.data.length) ≤
        sb.capacity - sb.data.length := Nat.min_le_right _ _
    simp only [xStreamBufferSend, List.length_append, List.length_take]
    omega
  · simp [xStreamBufferSend, List.take_left]
  · simp [xStreamBufferSend, ht]
  · have h := produce_each_fits ys (xStreamBufferCreate 1024)
      (by simpa [xStreamBufferCreate] using hys)
    simp only [xStreamBufferReceive]
    rw [h]
    simp [xStreamBufferCreate]

/-- C7 witness: a channel holding one byte, a full channel of 1024
bytes, and three bytes produced then consumed in order. -/
theorem claim_C7_byte_channel_invariants_witness :
    ({ capacity := 1024, data := [7] } : StreamBuffer).data.length ≤ 1024 ∧
    ({ capacity := 1024, data := List.replicate 1024 3 } :
        StreamBuffer).data.length = 1024 ∧
    ([4, 5, 6] : List Byte).length ≤ 1024 ∧
    ((xStreamBufferSend { capacity := 1024, data := [7] }
        [1, 2, 3]).1.data.length ≤ 1024 ∧
     (xStreamBufferSend { capacity := 1024, data := [7] }
        [1, 2, 3]).1.data.take 1 = [7] ∧
     xStreamBufferSend { capacity := 1024, data := List.replicate 1024 3 }
        [1, 2, 3] =
       ({ capacity := 1024, data := List.replicate 1024 3 }, 0) ∧
     (xStreamBufferReceive (produce_each (xStreamBufferCreate 1024)
        [4, 5, 6]) 3).2 = [4, 5, 6]) :=
  ⟨by simp, by simp only [List.length_replicate], by simp,
   claim_C7_byte_channel_invariants
     { capacity := 1024, data := [7] }
     { capacity := 1024, data := List.replicate 1024 3 }
     [1, 2, 3] [4, 5, 6] (by simp)
     (by simp only [List.length_replicate]) (by simp)⟩

/-- C8: each completion signal is a binary latch that starts available
(`osSemaphoreNew(1, 1, NULL)`); acquire either takes it or times out;
releasing while already available is a no-op that neither aborts nor
accumulates a count above one; and the completion and error callbacks of
a peripheral release the signal identically. -/
theorem claim_C8_completion_signal (s t : Semaphore)
    (hsm : s.max_count = 1) (hsc : s.count = 1)
    (htm : t.max_count = 1) (htc : t.count = 0) :
    osSemaphoreNew 1 1 = { max_count := 1, count := 1 } ∧
    osSemaphoreAcquire s = ({ s with count := 0 }, OsStatus.osOK) ∧
    osSemaphoreAcquire t = (t, OsStatus.osErrorTimeout) ∧
    (osSemaphoreRelease s).1 = s ∧
    (osSemaphoreRelease t).1 = { t with count := 1 } ∧
    (osSemaphoreRelease (osSemaphoreRelease t).1).1 = { t with count := 1 } ∧
    uart_tx_complete_callback = uart_error_callback ∧
    spi_tx_rx_complete_callback = spi_error_callback := by
  refine ⟨rfl, ?_, ?_, ?_, ?_, ?_, rfl, rfl⟩
  · simp [osSemaphoreAcquire, hsc]
  · simp [osSemaphoreAcquire, htc]
  · simp [osSemaphoreRelease, hsc, hsm]
  · simp [osSemaphoreRelease, htc, htm]
  · simp [osSemaphoreRelease, htc, htm]

/-- C8 witness: the available latch `⟨1, 1⟩` and the taken latch
`⟨1, 0⟩`. -/
theorem claim_C8_completion_signal_witness :
    ({ max_count := 1, count := 1 } : Semaphore).count = 1 ∧
    ({ max_count := 1, count := 0 } : Semaphore).count = 0 ∧
    (osSemaphoreNew 1 1 = { max_count := 1, count := 1 } ∧
     osSemaphoreAcquire { max_count := 1, count := 1 } =
       ({ max_count := 1, count := 0 }, OsStatus.osOK) ∧
     osSemaphoreAcquire { max_count := 1, count := 0 } =
       ({ max_count := 1, count := 0 }, OsStatus.osErrorTimeout) ∧
     (osSemaphoreRelease { max_count := 1, count := 1 }).1 =
       { max_count := 1, count := 1 } ∧
     (osSemaphoreRelease { max_count := 1, count := 0 }).1 =
       { max_count := 1, count := 1 } ∧
     (osSemaphoreRelease
        (osSemaphoreRelease { max_count := 1, count := 0 }).1).1 =
       { max_count := 1, count := 1 } ∧
     uart_tx_complete_callback = uart_error_callback ∧
     spi_tx_rx_complete_callback = spi_error_callback) :=
  ⟨rfl, rfl,
   claim_C8_completion_signal { max_count := 1, count := 1 }
     { max_count := 1, count := 0 } rfl rfl rfl rfl⟩

/-- C9 (code behaviour at the failing input): `uart_spi_start` returns
`Except.ok 0` exactly when all eleven registrations, allocations and
task starts succeed, and on any failure it aborts through `assert()`
(`Except.error ()`); in particular no execution returns -1, although the
header documents a return of -1 on error. -/
theorem claim_C9_start_asserts_instead_of_minus_one :
    (∀ e : StartEnv, uart_spi_start e =
        (if e.allOk then Except.ok 0 else Except.error ())) ∧
    uart_spi_start
      { uart_tx_cb_ok := false, uart_rx_cb_ok := true, uart_err_cb_ok := true,
        uart_stream_ok := true, uart_sema_ok := true, spi_txrx_cb_ok := true,
        spi_err_cb_ok := true, spi_stream_ok := true, spi_sema_ok := true,
        uart_thread_ok := true, spi_thread_ok := true } = Except.error () := by
  constructor
  · intro e
    obtain ⟨a, b, c, d, f, g, h, i, j, k, l⟩ := e
    cases a <;> cases b <;> cases c <;> cases d <;> cases f <;> cases g <;>
      cases h <;> cases i <;> cases j <;> cases k <;> cases l <;> rfl
  · rfl

end UartSpi
